import Mathlib

/-!
Verification of the DLI 2025 dashboard (`dashdli.py`).

The file gives a shallow embedding of the program's reproducible logic —
the cache-refresh pipeline (`update_csv`, the manual refresh button), the
data loader (`load_data`), the filter, aggregation and search logic of the
view layer, and the access-code gate — and proves properties about it.

Strings are embedded as `List Char` so that every string operation the
program uses (`str.split`, `str.strip`, `str.lower`, single-character
`str.replace`) is an executable structural recursion that the kernel can
evaluate on concrete inputs.
-/

namespace DashDLI

/-- A Python string: a list of characters.  String literals are written as
`"...".data`. -/
abbrev Str := List Char

/-- Python `str.split(",")`: split on every comma; the empty string yields
a single empty field, mirroring `"".split(",") == [""]`. -/
def splitOnComma : Str → List Str
  | [] => [[]]
  | c :: cs =>
      let r := splitOnComma cs
      if c = ',' then [] :: r
      else
        match r with
        | [] => [[c]]
        | t :: ts => (c :: t) :: ts

/-- Python `str.strip()`: drop leading and trailing whitespace. -/
def pyStrip (s : Str) : Str :=
  ((s.dropWhile Char.isWhitespace).reverse.dropWhile Char.isWhitespace).reverse

/-- Python `str.lower()`.  `Char.toLower` maps the ASCII uppercase range;
all data the properties below exercise is ASCII in the letters that matter,
and notably the accented lowercase letters the program's data contains are
left unchanged by both. -/
def pyLower (s : Str) : Str := s.map Char.toLower

/-- Python `str.replace(pat, rep)` for a single-character pattern and
replacement, as in the two dash replacements of `load_data`. -/
def pyReplaceChar (pat rep : Char) (s : Str) : Str :=
  s.map (fun c => if c = pat then rep else c)

/-! The Cache Manager (`download_csv` / `update_csv`, dashdli.py lines
104-138) and the manual refresh button (lines 144-146). -/

/-- File contents, one natural number per byte. -/
abbrev Bytes := List Nat

/-- The observable attributes of the cached file at `CSV_PATH`: its byte
content and its modification time in seconds. -/
structure FileData where
  content : Bytes
  mtimeSec : Int
deriving DecidableEq

/-- The cached file: `none` when `CSV_PATH` does not exist. -/
abbrev FsFile := Option FileData

/-- `MAX_AGE = dt.timedelta(hours=1)` (dashdli.py line 93), in seconds. -/
def MAX_AGE : Int := 3600

/-- The staleness test of `update_csv` (dashdli.py lines 122-125): the
cache is outdated when the file does not exist or its age exceeds
`MAX_AGE`. -/
def outdated (now : Int) (fs : FsFile) : Bool :=
  match fs with
  | none => true
  | some d => decide (now - d.mtimeSec > MAX_AGE)

/-- The environment of one `update_csv()` call: the wall clock; the outcome
of the `CSV_PATH.exists()` / `stat()` probe (`some e` models an `OSError`
raised by the check itself); the outcome of `download_csv()` (dashdli.py
lines 104-117, modelled as the bytes returned or the exception raised —
its HTTP internals are outside the embedding); and the outcome of the
temp-file write machinery of lines 130-136 (`some e` models an exception
raised before the rename takes effect). -/
structure Env where
  now : Int
  statError : Option Str
  fetch : Except Str Bytes
  writeError : Option Str

/-- The warning emitted by the handler at dashdli.py line 138, the caught
exception text appended to the fixed prefix. -/
def warnMsg (e : Str) : Str :=
  "⚠️  Não foi possível atualizar o CSV: ".data ++ e

/-- The result of one `update_csv()` call: the cached file afterwards, the
warnings emitted, and whether `download_csv()` was invoked. -/
structure UpdateOutcome where
  fs : FsFile
  warnings : List Str
  fetched : Bool
deriving DecidableEq

/-- The body of the `try:` block of `update_csv` (dashdli.py lines
121-136): the staleness check, the early return when fresh, the fetch, and
the temp-file write ending in the atomic rename.  The first component is
the resulting file state or the exception escaping the body; the second
records whether `download_csv()` was invoked. -/
def update_csv_body (env : Env) (fs : FsFile) : Except Str FsFile × Bool :=
  match env.statError with
  | some e => (.error e, false)
  | none =>
    if !(outdated env.now fs) then (.ok fs, false)
    else
      match env.fetch with
      | .error e => (.error e, true)
      | .ok data =>
        match env.writeError with
        | some e => (.error e, true)
        | none => (.ok (some ⟨data, env.now⟩), true)

/-- `update_csv` (dashdli.py lines 119-138): the body wrapped in the
`except Exception` handler, which warns with the caught error and leaves
the cached file as it was. -/
def update_csv (env : Env) (fs : FsFile) : UpdateOutcome :=
  match update_csv_body env fs with
  | (.ok fs2, fetched) => ⟨fs2, [], fetched⟩
  | (.error e, fetched) => ⟨fs, [warnMsg e], fetched⟩

/-- The result of clicking the manual refresh button: the `update_csv`
outcome and whether the view was refreshed. -/
structure ManualRefresh where
  outcome : UpdateOutcome
  rerunCalled : Bool
deriving DecidableEq

/-- The handler of the sidebar button "🔄 Atualizar dados agora"
(dashdli.py lines 144-146): it calls `update_csv()` — the ordinary entry
point with its staleness check — and then `rerun()` unconditionally. -/
def manualRefreshClick (env : Env) (fs : FsFile) : ManualRefresh :=
  ⟨update_csv env fs, true⟩

/-- The content of `CSV_PATH` observable after each primitive step of the
success path of `update_csv` (dashdli.py lines 130-136): `mkdir` of the
parent, creation of the named temporary file in the same directory,
`tmp.write(data)`, `tmp.flush()`, `os.fsync`, the close of the temp file,
and finally `tmp_path.replace(CSV_PATH)`.  Only the final rename touches
the target path; every earlier step acts on the separate temporary file,
so the target is unchanged until the rename installs the new content. -/
def writeStepsTargetView (now : Int) (data : Bytes) (fs : FsFile) :
    List FsFile :=
  [fs, fs, fs, fs, fs, fs, some ⟨data, now⟩]

/-! The Data Loader (`load_data`, dashdli.py lines 162-169). -/

/-- A cell of the CSV as parsed with `dtype=str`: `none` models a missing
field (pandas `NaN`), `some` a text field.  `dtype=str` performs no type
inference, so a present cell is always text. -/
abbrev RawCell := Option Str

/-- The parsed CSV before cleaning: header plus rows, the result of
`pd.read_csv(path, dtype=str)`. -/
structure RawCsv where
  header : List Str
  rows : List (List RawCell)

/-- The loaded table: header plus rows of text cells. -/
structure Table where
  header : List Str
  rows : List (List Str)
deriving DecidableEq

/-- The cell cleaner `clean` inside `load_data` (dashdli.py lines
165-168): HTML-entity unescaping — `html.unescape`, passed in as a
parameter because its entity table is Python library code — followed by
replacing the en dash and then the em dash with a plain hyphen. -/
def clean (unescape : Str → Str) (val : Str) : Str :=
  pyReplaceChar '—' '-' (pyReplaceChar '–' '-' (unescape val))

/-- `load_data` (dashdli.py lines 162-169): `pd.read_csv(path, dtype=str)`
followed by `.fillna("")` and `.applymap(clean)`.  The `mtime` argument of
the source function only keys the memoization layer (`st.cache_data`) and
does not influence the value, so it is not a parameter of the model. -/
def load_data (unescape : Str → Str) (csv : RawCsv) : Table :=
  ⟨csv.header,
   csv.rows.map (fun r => r.map (fun c => clean unescape (c.getD [])))⟩

/-! The View/Filter Layer (dashdli.py lines 183-237). -/

/-- One row of the listings table, restricted to the columns the view
layer reads: `Title`, `Categories`, `geolocation_city`,
`geolocation_state_long`. -/
structure Row where
  title : Str
  categories : Str
  city : Str
  state : Str
deriving DecidableEq

/-- The category tokens parsed out of one `Categories` cell: split on
commas, strip each token, drop the empty ones.  This pipeline appears both
in the derivation of `categorias` (dashdli.py lines 186-190) and in
`cat_series` (lines 208-209). -/
def catTokens (s : Str) : List Str :=
  ((splitOnComma s).map pyStrip).filter (fun t => t ≠ [])

/-- `categorias` (dashdli.py lines 186-190): the distinct category tokens
of the whole table.  The source sorts them ascending for display; every
use the properties below touch compares them as a set, so the order is not
modelled. -/
def categorias (df : List Row) : List Str :=
  (df.flatMap (fun r => catTokens r.categories)).dedup

/-- The state filter (dashdli.py line 193): `df` itself for the sentinel
"Todos", otherwise the rows whose state equals the selection. -/
def stateFiltered (df : List Row) (estado_sel : Str) : List Row :=
  if estado_sel = "Todos".data then df
  else df.filter (fun r => r.state = estado_sel)

/-- The category-filter row predicate (dashdli.py lines 195-196): some
comma-split token of the cell, stripped, is among the selected
categories. -/
def rowMatchesCats (cats_sel : List Str) (x : Str) : Bool :=
  (splitOnComma x).any (fun cat => decide (pyStrip cat ∈ cats_sel))

/-- `df_f` (dashdli.py lines 193-196): the state filter, then the category
filter — which the source applies only when the selected categories differ
from the full set as Python sets. -/
def df_f (df : List Row) (estado_sel : Str) (cats_sel : List Str) :
    List Row :=
  let base := stateFiltered df estado_sel
  if cats_sel.toFinset ≠ (categorias df).toFinset then
    base.filter (fun r => rowMatchesCats cats_sel r.categories)
  else base

/-- `cat_series` (dashdli.py lines 208-209): split every `Categories` cell
on commas, explode to one entry per token, strip each entry, and drop the
empty ones. -/
def cat_series (df : List Row) : List Str :=
  (((df.map (fun r => splitOnComma r.categories)).flatten).map pyStrip).filter
    (fun t => t ≠ [])

/-- `value_counts` (pandas): the number of occurrences of `a` in `l`. -/
def value_counts (l : List Str) (a : Str) : Nat :=
  (l.filter (fun b => b = a)).length

/-- `search_key` (dashdli.py lines 231-235): the lowercased `Title`, city
and state of a row joined by single spaces. -/
def search_key (r : Row) : Str :=
  pyLower r.title ++ " ".data ++ pyLower r.city ++ " ".data ++
    pyLower r.state

/-- A Python regular expression, restricted to the fragment the properties
below exercise: a sequence of characters in which the dot matches any
single character and every other character matches itself.  `reMatchAt pat
s` asks whether `pat` matches a prefix of `s`. -/
def reMatchAt : Str → Str → Bool
  | [], _ => true
  | _ :: _, [] => false
  | p :: ps, c :: cs => (p == '.' || p == c) && reMatchAt ps cs

/-- Python `re.search`: the pattern matches at some position of `s`.
Pandas `Series.str.contains(query)` applies `re.search(query, value)`
because its `regex` flag defaults to true. -/
def reSearch (pat s : Str) : Bool :=
  (List.range (s.length + 1)).any (fun i => reMatchAt pat (s.drop i))

/-- The store search (dashdli.py lines 228-237): the query is lowercased
and stripped; a nonempty query keeps the rows whose `search_key` matches
it under `Series.str.contains`, an empty query keeps every row. -/
def searchLojas (df : List Row) (rawQuery : Str) : List Row :=
  let query := pyStrip (pyLower rawQuery)
  if query ≠ [] then df.filter (fun r => reSearch query (search_key r))
  else df

/-! The Authenticator (dashdli.py lines 41 and 74-79). -/

/-- `VALID_CODES` (dashdli.py line 41): the configured `ACCESS_CODE`
string split on commas, each entry stripped, empty entries dropped.  The
source builds a Python set; the model keeps the underlying list, whose
membership relation is the set's. -/
def VALID_CODES (accessCode : Str) : List Str :=
  ((splitOnComma accessCode).map pyStrip).filter (fun c => c ≠ [])

/-- The submit branch of the login form (dashdli.py lines 74-79): when the
submitted code `pwd` is a member of `VALID_CODES` the session flag is set;
otherwise the flag is left as it was and the inline error is reported. -/
def login_submit (validCodes : List Str) (pwd : Str) (auth_ok : Bool) :
    Bool × Option Str :=
  if pwd ∈ validCodes then (true, none)
  else (auth_ok, some "Código inválido".data)

/-! Theorems. -/

/-- C1: the claim says the manual "refresh now" trigger bypasses the
staleness check and invokes the Fetcher for every state of the cached
file.  It does not: the button handler calls the ordinary `update_csv`,
whose staleness check short-circuits.  With a cached file 500 seconds old
(well within the one-hour threshold) and a fetch that would succeed,
clicking the button invokes no fetch and leaves the file as it was,
although the view is still refreshed unconditionally. -/
theorem C1_manual_refresh_does_not_bypass_staleness :
    (manualRefreshClick ⟨1000, none, .ok [1, 2], none⟩
        (some ⟨[0], 500⟩)).outcome.fetched = false ∧
    (manualRefreshClick ⟨1000, none, .ok [1, 2], none⟩
        (some ⟨[0], 500⟩)).outcome.fs = some ⟨[0], 500⟩ ∧
    (manualRefreshClick ⟨1000, none, .ok [1, 2], none⟩
        (some ⟨[0], 500⟩)).rerunCalled = true := by
  decide

/-- C2: when the existence and mtime probe completes normally,
`update_csv` invokes `download_csv` if and only if the cached file is
absent or its age exceeds the one-hour threshold. -/
theorem C2_fetch_iff_absent_or_stale (env : Env) (fs : FsFile)
    (hstat : env.statError = none) :
    (update_csv env fs).fetched = true ↔
      (fs = none ∨ ∃ d, fs = some d ∧ env.now - d.mtimeSec > MAX_AGE) := by
  rcases env with ⟨now, se, fe, we⟩
  cases hstat
  cases fs with
  | none =>
    cases fe with
    | error e => simp [update_csv, update_csv_body, outdated]
    | ok data =>
      cases we with
      | none => simp [update_csv, update_csv_body, outdated]
      | some e => simp [update_csv, update_csv_body, outdated]
  | some d =>
    by_cases h : now - d.mtimeSec > MAX_AGE
    · cases fe with
      | error e => simp [update_csv, update_csv_body, outdated, h]
      | ok data =>
        cases we with
        | none => simp [update_csv, update_csv_body, outdated, h]
        | some e => simp [update_csv, update_csv_body, outdated, h]
    · simp [update_csv, update_csv_body, outdated, h]

/-- C2 witness: a concrete call with the file absent does fetch. -/
theorem C2_fetch_iff_absent_or_stale_witness :
    (update_csv ⟨1000, none, .ok [7], none⟩ none).fetched = true :=
  (C2_fetch_iff_absent_or_stale ⟨1000, none, .ok [7], none⟩ none rfl).mpr
    (Or.inl rfl)

/-- C3: when `download_csv` raises, `update_csv` leaves the cached file —
its existence and its content — exactly as it was, and whenever the fetch
was actually attempted the error is surfaced as the single non-fatal
warning. -/
theorem C3_fetch_error_preserves_cache (env : Env) (fs : FsFile) (e : Str)
    (hf : env.fetch = .error e) :
    (update_csv env fs).fs = fs ∧
      ((update_csv env fs).fetched = true →
        (update_csv env fs).warnings = [warnMsg e]) := by
  rcases env with ⟨now, se, fe, we⟩
  cases hf
  cases se with
  | some e2 => simp [update_csv, update_csv_body]
  | none =>
    cases fs with
    | none => simp [update_csv, update_csv_body, outdated]
    | some d =>
      by_cases h : now - d.mtimeSec > MAX_AGE
      · simp [update_csv, update_csv_body, outdated, h]
      · simp [update_csv, update_csv_body, outdated, h]

/-- C3 witness: a failing fetch on a stale cached file leaves the file in
place and emits exactly the warning built from the error. -/
theorem C3_fetch_error_preserves_cache_witness :
    (update_csv ⟨9000, none, .error "boom".data, none⟩
        (some ⟨[1], 0⟩)).fs = some ⟨[1], 0⟩ ∧
    ((update_csv ⟨9000, none, .error "boom".data, none⟩
        (some ⟨[1], 0⟩)).fetched = true →
      (update_csv ⟨9000, none, .error "boom".data, none⟩
          (some ⟨[1], 0⟩)).warnings = [warnMsg "boom".data]) :=
  C3_fetch_error_preserves_cache ⟨9000, none, .error "boom".data, none⟩
    (some ⟨[1], 0⟩) "boom".data rfl

/-- C10: every error escaping the body of `update_csv` — including one
raised by the existence or mtime probe itself — is caught by the handler:
the call returns normally, the cached file is unchanged, and the single
warning is built from the error. -/
theorem C10_all_errors_caught (env : Env) (fs : FsFile) (e : Str)
    (h : (update_csv_body env fs).1 = Except.error e) :
    update_csv env fs = ⟨fs, [warnMsg e], (update_csv_body env fs).2⟩ := by
  unfold update_csv
  rcases hb : update_csv_body env fs with ⟨r, f⟩
  rw [hb] at h
  cases r with
  | ok a => simp at h
  | error e2 =>
    simp only at h
    cases h
    rfl

/-- C10 witness: an error in the existence probe is caught and warned
about, with the cached-file state untouched. -/
theorem C10_all_errors_caught_witness :
    update_csv ⟨0, some "oserr".data, .ok [], none⟩ none
      = ⟨none, [warnMsg "oserr".data],
          (update_csv_body ⟨0, some "oserr".data, .ok [], none⟩ none).2⟩ :=
  C10_all_errors_caught ⟨0, some "oserr".data, .ok [], none⟩ none
    "oserr".data rfl

/-- C4: on the success path — stale or absent cache, fetch returning
`data`, write machinery succeeding — the cached file afterwards holds
exactly the fetched bytes, and at every intermediate step of the write the
target file is observable only as the complete old state or the complete
new state, the new state appearing exactly at the final rename. -/
theorem C4_successful_fetch_atomic_install (env : Env) (fs : FsFile)
    (data : Bytes) (hstat : env.statError = none)
    (hout : outdated env.now fs = true) (hf : env.fetch = .ok data)
    (hw : env.writeError = none) :
    (update_csv env fs).fs = some ⟨data, env.now⟩ ∧
    (∀ d, (update_csv env fs).fs = some d → d.content = data) ∧
    (∀ v ∈ writeStepsTargetView env.now data fs,
      v = fs ∨ v = some ⟨data, env.now⟩) ∧
    (writeStepsTargetView env.now data fs).getLast?
      = some (some ⟨data, env.now⟩) := by
  rcases env with ⟨now, se, fe, we⟩
  cases hstat
  cases hf
  cases hw
  refine ⟨?_, ?_, ?_, ?_⟩
  · simp [update_csv, update_csv_body, hout]
  · intro d hd
    simp [update_csv, update_csv_body, hout] at hd
    simp [← hd]
  · intro v hv
    simp only [writeStepsTargetView, List.mem_cons, List.not_mem_nil,
      or_false] at hv
    rcases hv with h | h | h | h | h | h | h <;> simp [h]
  · rfl

/-- C4 witness: fetching three bytes into an absent cache installs exactly
those bytes, and the step trace never shows a torn target file. -/
theorem C4_successful_fetch_atomic_install_witness :
    (update_csv ⟨9999, none, .ok [1, 2, 3], none⟩ none).fs
        = some ⟨[1, 2, 3], 9999⟩ ∧
    (writeStepsTargetView 9999 [1, 2, 3] none).getLast?
        = some (some ⟨[1, 2, 3], 9999⟩) :=
  ⟨(C4_successful_fetch_atomic_install ⟨9999, none, .ok [1, 2, 3], none⟩
      none [1, 2, 3] rfl rfl rfl rfl).1,
   (C4_successful_fetch_atomic_install ⟨9999, none, .ok [1, 2, 3], none⟩
      none [1, 2, 3] rfl rfl rfl rfl).2.2.2⟩

/-- C5: for every unescaping function that fixes the empty string (as
`html.unescape` does), loading preserves the header, the row count and the
row order, replaces every absent field by the empty string, and rewrites
every text cell by unescaping followed by dash replacement and by nothing
else: the cell at any position of the output is exactly `clean` of the
corresponding input cell. -/
theorem C5_load_data_shape (unescape : Str → Str) (csv : RawCsv)
    (hu : unescape [] = []) :
    (load_data unescape csv).header = csv.header ∧
    (load_data unescape csv).rows.length = csv.rows.length ∧
    (∀ (i : Nat) (row : List RawCell), csv.rows[i]? = some row →
      (load_data unescape csv).rows[i]?
        = some (row.map (fun c => clean unescape (c.getD [])))) ∧
    (∀ (i j : Nat) (row : List RawCell),
      csv.rows[i]? = some row → row[j]? = some none →
      ∃ out, (load_data unescape csv).rows[i]? = some out ∧
        out[j]? = some []) ∧
    (∀ (i j : Nat) (row : List RawCell) (s : Str),
      csv.rows[i]? = some row → row[j]? = some (some s) →
      ∃ out, (load_data unescape csv).rows[i]? = some out ∧
        out[j]? = some (clean unescape s)) := by
  have hclean : clean unescape [] = [] := by
    simp [clean, hu, pyReplaceChar]
  refine ⟨rfl, by simp [load_data], ?_, ?_, ?_⟩
  · intro i row hrow
    simp [load_data, List.getElem?_map, hrow]
  · intro i j row hrow hcell
    refine ⟨row.map (fun c => clean unescape (c.getD [])), ?_, ?_⟩
    · simp [load_data, List.getElem?_map, hrow]
    · simp [List.getElem?_map, hcell, hclean]
  · intro i j row s hrow hcell
    refine ⟨row.map (fun c => clean unescape (c.getD [])), ?_, ?_⟩
    · simp [load_data, List.getElem?_map, hrow]
    · simp [List.getElem?_map, hcell]

/-- C5 witness: loading a concrete two-row file (one dash-bearing text
cell, one absent cell) with the identity unescaper keeps the header and
the two rows, cleans the text cell and blanks the absent cell. -/
theorem C5_load_data_shape_witness :
    (load_data id ⟨["Title".data], [[some "a–b".data], [none]]⟩).header
        = ["Title".data] ∧
    (load_data id ⟨["Title".data], [[some "a–b".data], [none]]⟩).rows.length
        = 2 ∧
    (∃ out, (load_data id
        ⟨["Title".data], [[some "a–b".data], [none]]⟩).rows[1]?
          = some out ∧ out[0]? = some []) ∧
    (∃ out, (load_data id
        ⟨["Title".data], [[some "a–b".data], [none]]⟩).rows[0]?
          = some out ∧ out[0]? = some (clean id "a–b".data)) :=
  ⟨(C5_load_data_shape id _ rfl).1,
   (C5_load_data_shape id _ rfl).2.1,
   (C5_load_data_shape id _ rfl).2.2.2.1 1 0 [none] rfl rfl,
   (C5_load_data_shape id _ rfl).2.2.2.2 0 0 [some "a–b".data]
     "a–b".data rfl rfl⟩

/-- C6: when the selected categories equal the full distinct set as sets,
the filter is skipped outright, so the filtered rows are exactly the
state-filtered rows with no category filter applied — in particular a row
whose category field parses to zero tokens is retained exactly as it would
be without filtering. -/
theorem C6_all_categories_is_noop (df : List Row) (estado_sel : Str)
    (cats_sel : List Str)
    (h : cats_sel.toFinset = (categorias df).toFinset) :
    df_f df estado_sel cats_sel = stateFiltered df estado_sel ∧
    (∀ r, catTokens r.categories = [] →
      (r ∈ df_f df estado_sel cats_sel ↔
        r ∈ stateFiltered df estado_sel)) := by
  have hf : df_f df estado_sel cats_sel = stateFiltered df estado_sel := by
    simp [df_f, h]
  exact ⟨hf, fun r _ => by rw [hf]⟩

/-- C6 witness: selecting the two categories of a concrete table in a
different order leaves both rows — including the row with zero parsed
category tokens — exactly as the unfiltered state filter does. -/
theorem C6_all_categories_is_noop_witness :
    df_f [⟨"a".data, "B, A".data, "c".data, "s".data⟩,
          ⟨"b".data, [], "c".data, "s".data⟩] "Todos".data
        ["A".data, "B".data]
      = stateFiltered [⟨"a".data, "B, A".data, "c".data, "s".data⟩,
          ⟨"b".data, [], "c".data, "s".data⟩] "Todos".data :=
  (C6_all_categories_is_noop
    [⟨"a".data, "B, A".data, "c".data, "s".data⟩,
     ⟨"b".data, [], "c".data, "s".data⟩] "Todos".data
    ["A".data, "B".data] (by decide)).1

/-- The exploded token list of the empty table is empty. -/
theorem cat_series_nil : cat_series [] = [] := rfl

/-- Prepending a row prepends its parsed tokens to the exploded list. -/
theorem cat_series_cons (r : Row) (df : List Row) :
    cat_series (r :: df) = catTokens r.categories ++ cat_series df := by
  simp [cat_series, catTokens, List.filter_append]

/-- The exploded token list distributes over table concatenation. -/
theorem cat_series_append (a b : List Row) :
    cat_series (a ++ b) = cat_series a ++ cat_series b := by
  induction a with
  | nil => simp [cat_series_nil]
  | cons r t ih => simp [cat_series_cons, ih]

/-- The exploded token list of a one-row table is that row's tokens. -/
theorem cat_series_singleton (r : Row) :
    cat_series [r] = catTokens r.categories := by
  simp [cat_series_cons, cat_series_nil]

/-- Occurrence counts are additive under concatenation. -/
theorem value_counts_append (a b : List Str) (c : Str) :
    value_counts (a ++ b) c = value_counts a c + value_counts b c := by
  simp [value_counts, List.filter_append]

/-- Summing the occurrence count of every distinct element of a list gives
the list's length. -/
theorem sum_value_counts (l : List Str) :
    ∑ a ∈ l.toFinset, value_counts l a = l.length := by
  induction l with
  | nil => simp [value_counts]
  | cons x xs ih =>
    have hvc : ∀ a, value_counts (x :: xs) a
        = value_counts xs a + (if x = a then 1 else 0) := by
      intro a
      simp only [value_counts, List.filter_cons]
      by_cases h : x = a <;> simp [h, Nat.add_comm]
    simp only [List.toFinset_cons, hvc, Finset.sum_add_distrib]
    rw [Finset.sum_ite_eq]
    by_cases hx : x ∈ xs
    · have hmem : x ∈ xs.toFinset := List.mem_toFinset.mpr hx
      rw [Finset.insert_eq_self.mpr hmem]
      simp [hmem, ih, List.length_cons]
    · have hmem : x ∉ xs.toFinset := fun h => hx (List.mem_toFinset.mp h)
      rw [Finset.sum_insert hmem]
      have hz : value_counts xs x = 0 := by
        simp only [value_counts, List.length_eq_zero]
        rw [List.filter_eq_nil_iff]
        intro a ha
        simp only [decide_eq_true_eq]
        intro hax
        exact hx (hax ▸ ha)
      simp [hz, ih, Finset.mem_insert]

/-- When every row parses to at least one token, the exploded token list
is at least as long as the table. -/
theorem length_cat_series_ge (df : List Row)
    (h : ∀ r ∈ df, catTokens r.categories ≠ []) :
    (cat_series df).length ≥ df.length := by
  induction df with
  | nil => simp [cat_series_nil]
  | cons r t ih =>
    have h1 : 1 ≤ (catTokens r.categories).length :=
      List.length_pos.mpr (h r (by simp))
    have h2 := ih (fun x hx => h x (by simp [hx]))
    simp only [cat_series_cons, List.length_append, List.length_cons]
    omega

/-- When every row parses to at least one token, the exploded token list
is exactly as long as the table iff every row has exactly one token. -/
theorem length_cat_series_eq_iff (df : List Row)
    (h : ∀ r ∈ df, catTokens r.categories ≠ []) :
    (cat_series df).length = df.length ↔
      ∀ r ∈ df, (catTokens r.categories).length = 1 := by
  induction df with
  | nil => simp [cat_series_nil]
  | cons r t ih =>
    have h1 : 1 ≤ (catTokens r.categories).length :=
      List.length_pos.mpr (h r (by simp))
    have h2 := length_cat_series_ge t (fun x hx => h x (by simp [hx]))
    have ihh := ih (fun x hx => h x (by simp [hx]))
    simp only [cat_series_cons, List.length_append, List.length_cons]
    constructor
    · intro he
      have hr : (catTokens r.categories).length = 1 := by omega
      have ht : (cat_series t).length = t.length := by omega
      intro x hx
      rcases List.mem_cons.mp hx with hx | hx
      · rw [hx]; exact hr
      · exact ihh.mp ht x hx
    · intro hall
      have hr : (catTokens r.categories).length = 1 := hall r (by simp)
      have ht : (cat_series t).length = t.length :=
        ihh.mpr (fun x hx => hall x (by simp [hx]))
      omega

/-- C7 fails as stated: a row whose category cell is the empty string
parses to zero tokens, so the category counts sum to 0 while the table has
one row — the claimed inequality "sum of counts at least the row count"
is violated. -/
theorem C7_counterexample :
    ¬ ((∑ c ∈ (cat_series [⟨"t".data, [], "c".data, "s".data⟩]).toFinset,
          value_counts (cat_series [⟨"t".data, [], "c".data, "s".data⟩]) c)
        ≥ ([⟨"t".data, [], "c".data, "s".data⟩] : List Row).length) := by
  decide

/-- C7 amended: a row with categories "A, B" contributes one count to each
of A and B — appending a row adds its per-token occurrence counts — and
for tables in which every row parses to at least one category token, the
sum of all category counts is at least the number of rows, with equality
iff every row has exactly one token. -/
theorem C7_fanout_counts (df : List Row)
    (h : ∀ r ∈ df, catTokens r.categories ≠ []) :
    catTokens "A, B".data = ["A".data, "B".data] ∧
    (∀ (df2 : List Row) (r : Row) (c : Str),
      value_counts (cat_series (df2 ++ [r])) c
        = value_counts (cat_series df2) c
          + value_counts (catTokens r.categories) c) ∧
    ((∑ c ∈ (cat_series df).toFinset, value_counts (cat_series df) c)
      ≥ df.length) ∧
    (((∑ c ∈ (cat_series df).toFinset, value_counts (cat_series df) c)
        = df.length) ↔
      ∀ r ∈ df, (catTokens r.categories).length = 1) := by
  refine ⟨by decide, ?_, ?_, ?_⟩
  · intro df2 r c
    rw [cat_series_append, cat_series_singleton, value_counts_append]
  · rw [sum_value_counts]
    exact length_cat_series_ge df h
  · rw [sum_value_counts]
    exact length_cat_series_eq_iff df h

/-- C7 witness: a two-row table with tokens A and B, C has three token
occurrences, at least its two rows. -/
theorem C7_fanout_counts_witness :
    (∑ c ∈ (cat_series [⟨"t1".data, "A".data, "c".data, "s".data⟩,
            ⟨"t2".data, "B, C".data, "c".data, "s".data⟩]).toFinset,
        value_counts (cat_series [⟨"t1".data, "A".data, "c".data, "s".data⟩,
            ⟨"t2".data, "B, C".data, "c".data, "s".data⟩]) c)
      ≥ ([⟨"t1".data, "A".data, "c".data, "s".data⟩,
          ⟨"t2".data, "B, C".data, "c".data, "s".data⟩] : List Row).length :=
  (C7_fanout_counts [⟨"t1".data, "A".data, "c".data, "s".data⟩,
      ⟨"t2".data, "B, C".data, "c".data, "s".data⟩] (by decide)).2.2.1

/-- C8: the claim says the search keeps exactly the rows whose lowercase
search key contains the query as a literal substring.  It does not: pandas
`str.contains` interprets the query as a regular expression, so the query
"x.z" keeps a row whose search key "xyz c s" does not contain "x.z" as a
literal substring.  The true parts of the claim also evaluate as stated:
an empty query keeps all rows, and — with only dash and entity
normalization and no accent folding — the query "sao paulo" does not match
a row whose state is "São Paulo". -/
theorem C8_contains_is_regex_not_literal :
    searchLojas [⟨"XYZ".data, [], "c".data, "s".data⟩] "x.z".data
        = [⟨"XYZ".data, [], "c".data, "s".data⟩] ∧
    ¬ ("x.z".data <:+: search_key ⟨"XYZ".data, [], "c".data, "s".data⟩) ∧
    searchLojas [⟨"Loja A".data, [], "Recife".data, "São Paulo".data⟩]
        "sao paulo".data = [] ∧
    searchLojas [⟨"XYZ".data, [], "c".data, "s".data⟩] []
        = [⟨"XYZ".data, [], "c".data, "s".data⟩] := by
  decide

/-- Membership in the credential set is exact membership of the submitted
string among the trimmed nonempty configured entries. -/
theorem mem_VALID_CODES (accessCode pwd : Str) :
    pwd ∈ VALID_CODES accessCode ↔
      ∃ c ∈ splitOnComma accessCode, pyStrip c = pwd ∧ pwd ≠ [] := by
  simp only [VALID_CODES, List.mem_filter, List.mem_map, decide_eq_true_eq]
  constructor
  · rintro ⟨⟨c, hc, hcp⟩, hne⟩
    exact ⟨c, hc, hcp, hne⟩
  · rintro ⟨c, hc, hcp, hne⟩
    exact ⟨⟨c, hc, hcp⟩, hne⟩

/-- C9 fails as stated: with the configured codes "abc" the candidate
" abc" has its trimmed form in the credential set, yet authentication
fails, because the code never trims the submitted candidate — only the
configured codes are trimmed when the set is built. -/
theorem C9_counterexample :
    VALID_CODES "abc".data ≠ [] ∧
    pyStrip " abc".data ∈ VALID_CODES "abc".data ∧
    (login_submit (VALID_CODES "abc".data) " abc".data false).1 = false := by
  decide

/-- C9 amended: for every nonempty credential set, authentication succeeds
iff the candidate code, exactly as submitted and untrimmed, equals the
trimmed form of some configured nonblank entry. -/
theorem C9_exact_untrimmed_membership (accessCode pwd : Str)
    (_hne : VALID_CODES accessCode ≠ []) :
    (login_submit (VALID_CODES accessCode) pwd false).1 = true ↔
      ∃ c ∈ splitOnComma accessCode, pyStrip c = pwd ∧ pwd ≠ [] := by
  rw [← mem_VALID_CODES]
  unfold login_submit
  by_cases h : pwd ∈ VALID_CODES accessCode
  · simp [h]
  · simp [h]

/-- C9 witness: with the configured codes "abc, def" the exact candidate
"def" authenticates. -/
theorem C9_exact_untrimmed_membership_witness :
    (login_submit (VALID_CODES "abc, def".data) "def".data false).1
      = true :=
  (C9_exact_untrimmed_membership "abc, def".data "def".data
      (by decide)).mpr ⟨" def".data, by decide, by decide, by decide⟩

end DashDLI
